import Mathlib

/-!
Verification of the OSA-Server repository (Django backend for a mine-safety
document QA product) against its natural-language specification.

The Lean definitions below are a shallow embedding of the Python source:

* `subscriptions/models.py` — `SubscriptionPlan`, `UserSubscription` and its
  methods (`credits_remaining`, `use_credits`, `can_upload_pdf`,
  `increment_pdf_count`, `decrement_pdf_count`, `reset_monthly_usage`);
* `subscriptions/utils.py` — `get_user_subscription`, `can_use_credits`,
  `can_upload_pdf`, `use_credits`, `increment_pdf_count`;
* `chatlog/views.py` — the PDF parser fallback chain and status writes of
  `process_pdf_background`, the request handling of `upload_pdf` and
  `ask_agent` (credit metering), the agent-graph cache
  `get_or_create_agent_graph`, and the catch-all exception pattern of the
  view handlers;
* `chatlog/admin_views.py` — `set_model_config` (which clears the agent
  cache).

Django model integer fields are embedded as `Int`; Python string lengths and
floor divisions are `Nat` operations (all lengths are non-negative, so `//`
agrees with `Nat` division).  Time-dependent predicates
(`is_period_expired`) are snapshot boolean fields.  Calls into external
libraries (PDF parsing, embedding, the LLM) are oracle inputs: an
`Option` value whose `none` models the library call raising an exception.
-/

namespace OSA

/-- Embedding of `SubscriptionPlan` (subscriptions/models.py): the limit
fields relevant to metering. -/
structure SubscriptionPlan where
  credit_limit : Int
  pdf_limit : Int
deriving Repr, DecidableEq

/-- Embedding of `UserSubscription` (subscriptions/models.py).
`period_expired` is the snapshot value of the `is_period_expired` property
(`timezone.now() > current_period_end`). -/
structure UserSubscription where
  plan : SubscriptionPlan
  status : String
  credits_used : Int
  pdfs_uploaded : Int
  period_expired : Bool
deriving Repr, DecidableEq

/-- Embedding of the `credits_remaining` property:
`max(0, self.plan.credit_limit - self.credits_used)`. -/
def credits_remaining (s : UserSubscription) : Int :=
  max 0 (s.plan.credit_limit - s.credits_used)

/-- Embedding of the `pdfs_remaining` property:
`max(0, self.plan.pdf_limit - self.pdfs_uploaded)`. -/
def pdfs_remaining (s : UserSubscription) : Int :=
  max 0 (s.plan.pdf_limit - s.pdfs_uploaded)

/-- Embedding of the `is_credits_exhausted` property:
`self.credits_used >= self.plan.credit_limit`. -/
def is_credits_exhausted (s : UserSubscription) : Bool :=
  s.plan.credit_limit ≤ s.credits_used

/-- Embedding of the `is_pdf_limit_reached` property:
`self.pdfs_uploaded >= self.plan.pdf_limit`. -/
def is_pdf_limit_reached (s : UserSubscription) : Bool :=
  s.plan.pdf_limit ≤ s.pdfs_uploaded

/-- Embedding of `reset_monthly_usage`: zeroes `credits_used` and starts a
new billing period (so the period is no longer expired). -/
def reset_monthly_usage (s : UserSubscription) : UserSubscription :=
  { s with credits_used := 0, period_expired := false }

/-- Embedding of `UserSubscription.use_credits` (subscriptions/models.py
lines 144-158): reset if the period expired, refuse if
`credits_used + amount > credit_limit`, otherwise add `amount`.  Returns
the Python return value paired with the subscription state after the call
(the Python method mutates `self`). -/
def UserSubscription.use_credits (s : UserSubscription) (amount : Int) :
    Bool × UserSubscription :=
  let s := if s.period_expired then reset_monthly_usage s else s
  if s.plan.credit_limit < s.credits_used + amount then
    (false, s)
  else
    (true, { s with credits_used := s.credits_used + amount })

/-- Embedding of `UserSubscription.can_upload_pdf`:
`self.pdfs_uploaded < self.plan.pdf_limit`. -/
def UserSubscription.can_upload_pdf (s : UserSubscription) : Bool :=
  s.pdfs_uploaded < s.plan.pdf_limit

/-- Embedding of `UserSubscription.increment_pdf_count`:
`self.pdfs_uploaded += 1`. -/
def UserSubscription.increment_pdf_count (s : UserSubscription) :
    UserSubscription :=
  { s with pdfs_uploaded := s.pdfs_uploaded + 1 }

/-- Embedding of `UserSubscription.decrement_pdf_count`:
decrement only when `self.pdfs_uploaded > 0`. -/
def UserSubscription.decrement_pdf_count (s : UserSubscription) :
    UserSubscription :=
  if 0 < s.pdfs_uploaded then
    { s with pdfs_uploaded := s.pdfs_uploaded - 1 }
  else
    s

namespace Utils

/-- Embedding of `subscriptions/utils.py: get_user_subscription`.  The
`user.subscription` relation is the `Option UserSubscription` argument
(`none` models a user with no subscription row).  When the billing period
is expired the function resets the monthly usage and persists it. -/
def get_user_subscription (sub : Option UserSubscription) :
    Option UserSubscription :=
  match sub with
  | none => none
  | some s => if s.period_expired then some (reset_monthly_usage s) else some s

/-- Embedding of `subscriptions/utils.py: can_use_credits`.  Returns the
`(bool, error_message)` pair. -/
def can_use_credits (sub : Option UserSubscription) (amount : Int) :
    Bool × Option String :=
  match get_user_subscription sub with
  | none => (false, some "No active subscription")
  | some s =>
    if s.status ≠ "active" then
      (false, some "Subscription is not active")
    else if is_credits_exhausted s then
      (false, some "Monthly credit limit reached")
    else if 0 < amount ∧ credits_remaining s < amount then
      (false, some "Insufficient credits")
    else
      (true, none)

/-- Embedding of `subscriptions/utils.py: can_upload_pdf`.  Returns the
`(bool, error_message)` pair. -/
def can_upload_pdf (sub : Option UserSubscription) : Bool × Option String :=
  match get_user_subscription sub with
  | none => (false, some "No active subscription")
  | some s =>
    if s.status ≠ "active" then
      (false, some "Subscription is not active")
    else if is_pdf_limit_reached s then
      (false, some "PDF limit reached")
    else
      (true, none)

/-- Embedding of `subscriptions/utils.py: use_credits`.  Returns
`(success, remaining_credits)` together with the subscription state after
the call (the transaction logging does not change the subscription). -/
def use_credits (sub : Option UserSubscription) (amount : Int) :
    (Bool × Int) × Option UserSubscription :=
  match get_user_subscription sub with
  | none => ((false, 0), none)
  | some s =>
    let r := s.use_credits amount
    if r.1 then ((true, credits_remaining r.2), some r.2)
    else ((false, credits_remaining r.2), some r.2)

/-- Embedding of `subscriptions/utils.py: increment_pdf_count`: increments
when the user has a subscription, otherwise does nothing. -/
def increment_pdf_count (sub : Option UserSubscription) :
    Option UserSubscription :=
  match get_user_subscription sub with
  | none => none
  | some s => some s.increment_pdf_count

/-- Embedding of `subscriptions/utils.py: decrement_pdf_count`. -/
def decrement_pdf_count (sub : Option UserSubscription) :
    Option UserSubscription :=
  match get_user_subscription sub with
  | none => none
  | some s => some s.decrement_pdf_count

end Utils

/-- Operations on the `pdfs_uploaded` counter exposed by the model. -/
inductive PdfCountOp
  | inc
  | dec
deriving Repr, DecidableEq

/-- Applies one counter operation. -/
def applyPdfCountOp (s : UserSubscription) : PdfCountOp → UserSubscription
  | .inc => s.increment_pdf_count
  | .dec => s.decrement_pdf_count

/-- Concrete subscription with `credits_used` above the plan limit, used to
refute the unclamped reading of `credits_remaining`. -/
def overusedSub : UserSubscription :=
  { plan := { credit_limit := 100, pdf_limit := 3 }
    status := "active"
    credits_used := 150
    pdfs_uploaded := 0
    period_expired := false }

/-- Claim C1 (counterexample): with `credit_limit = 100` and
`credits_used = 150`, the derived field `credits_remaining` is `0` and not
`credit_limit - credits_used = -50`, so it does not equal
`credit_limit - credits_used` for all values of `credits_used`. -/
theorem credits_remaining_not_linear :
    credits_remaining overusedSub ≠
      overusedSub.plan.credit_limit - overusedSub.credits_used := by
  decide

/-- Claim C1 (amended): `credits_remaining` equals
`credit_limit - credits_used` whenever `credits_used ≤ credit_limit`, and
is clamped to `0` whenever `credits_used ≥ credit_limit`. -/
theorem credits_remaining_spec (s : UserSubscription) :
    (s.credits_used ≤ s.plan.credit_limit →
      credits_remaining s = s.plan.credit_limit - s.credits_used) ∧
    (s.plan.credit_limit ≤ s.credits_used → credits_remaining s = 0) := by
  unfold credits_remaining
  constructor <;> intro h <;> omega

/-- Claim C1 witness: the amended statement evaluated on a subscription
with 30 of 100 credits used. -/
theorem credits_remaining_spec_witness :
    credits_remaining
        { plan := { credit_limit := 100, pdf_limit := 3 }
          status := "active"
          credits_used := 30
          pdfs_uploaded := 0
          period_expired := false } = 100 - 30 :=
  (credits_remaining_spec
    { plan := { credit_limit := 100, pdf_limit := 3 }
      status := "active"
      credits_used := 30
      pdfs_uploaded := 0
      period_expired := false }).1 (by decide)

/-- Claim C5: for a subscription whose billing period has not expired and a
non-negative amount, `use_credits` succeeds and adds exactly `amount` when
`credits_used + amount` fits within the plan limit, and otherwise fails
leaving the subscription unchanged. -/
theorem use_credits_spec (s : UserSubscription) (amount : Int)
    (hexp : s.period_expired = false) (hnn : 0 ≤ amount) :
    (s.credits_used + amount ≤ s.plan.credit_limit →
      (s.use_credits amount).1 = true ∧
      (s.use_credits amount).2 =
        { s with credits_used := s.credits_used + amount }) ∧
    (s.plan.credit_limit < s.credits_used + amount →
      (s.use_credits amount).1 = false ∧ (s.use_credits amount).2 = s) := by
  obtain ⟨plan, st, cu, pu, pe⟩ := s
  subst hexp
  unfold UserSubscription.use_credits
  simp only [Bool.false_eq_true, if_false]
  constructor <;> intro h
  · rw [if_neg (by omega)]
    exact ⟨rfl, rfl⟩
  · rw [if_pos (by omega)]
    exact ⟨rfl, rfl⟩

/-- Claim C5 witness: `use_credits` on a live subscription with 90 of 100
credits used, charging 10 (fits) — and the theorem again on charging 11 via
a second concrete input would fail the bound, so we also instantiate the
failure branch with amount 20. -/
theorem use_credits_spec_witness :
    ((⟨⟨100, 3⟩, "active", 90, 0, false⟩ :
        UserSubscription).use_credits 10).1 = true ∧
    ((⟨⟨100, 3⟩, "active", 90, 0, false⟩ :
        UserSubscription).use_credits 20).1 = false :=
  ⟨((use_credits_spec ⟨⟨100, 3⟩, "active", 90, 0, false⟩ 10 rfl
      (by decide)).1 (by decide)).1,
   ((use_credits_spec ⟨⟨100, 3⟩, "active", 90, 0, false⟩ 20 rfl
      (by decide)).2 (by decide)).1⟩

/-- Claim C10: `increment_pdf_count` adds exactly one,
`decrement_pdf_count` subtracts one exactly when the counter is positive
and otherwise leaves the subscription unchanged, and any sequence of the
two operations keeps `pdfs_uploaded` non-negative. -/
theorem pdf_count_spec (s : UserSubscription) (ops : List PdfCountOp) :
    (s.increment_pdf_count.pdfs_uploaded = s.pdfs_uploaded + 1) ∧
    (0 < s.pdfs_uploaded →
      s.decrement_pdf_count.pdfs_uploaded = s.pdfs_uploaded - 1) ∧
    (s.pdfs_uploaded ≤ 0 → s.decrement_pdf_count = s) ∧
    (0 ≤ s.pdfs_uploaded →
      0 ≤ (ops.foldl applyPdfCountOp s).pdfs_uploaded) := by
  refine ⟨rfl, ?_, ?_, ?_⟩
  · intro h
    unfold UserSubscription.decrement_pdf_count
    rw [if_pos h]
  · intro h
    unfold UserSubscription.decrement_pdf_count
    rw [if_neg (by omega)]
  · intro h
    induction ops generalizing s with
    | nil => exact h
    | cons op rest ih =>
      cases op with
      | inc =>
        refine ih s.increment_pdf_count ?_
        show (0 : Int) ≤ s.pdfs_uploaded + 1
        omega
      | dec =>
        refine ih s.decrement_pdf_count ?_
        unfold UserSubscription.decrement_pdf_count
        by_cases hp : 0 < s.pdfs_uploaded
        · rw [if_pos hp]
          show (0 : Int) ≤ s.pdfs_uploaded - 1
          omega
        · rw [if_neg hp]
          exact h

/-- Claim C10 witness: the counter facts evaluated on a subscription with
one uploaded PDF and the operation sequence dec, dec, inc. -/
theorem pdf_count_spec_witness :
    (([PdfCountOp.dec, PdfCountOp.dec, PdfCountOp.inc].foldl applyPdfCountOp
        (⟨⟨100, 3⟩, "active", 0, 1, false⟩ : UserSubscription)).pdfs_uploaded
      ≥ 0) ∧
    ((⟨⟨100, 3⟩, "active", 0, 1, false⟩ :
        UserSubscription).decrement_pdf_count.pdfs_uploaded = 1 - 1) :=
  ⟨(pdf_count_spec ⟨⟨100, 3⟩, "active", 0, 1, false⟩
      [PdfCountOp.dec, PdfCountOp.dec, PdfCountOp.inc]).2.2.2 (by decide),
   (pdf_count_spec ⟨⟨100, 3⟩, "active", 0, 1, false⟩ []).2.1 (by decide)⟩

/-!
PDF ingestion: `chatlog/views.py: process_pdf_background` (lines 287-462)
and `upload_pdf` (lines 465-550).  The external parser libraries are
oracles: each `Option` field is the text the library would return, with
`none` modelling the library call raising an exception (or, for Docling,
timing out).  Availability booleans model the `PYMUPDF_AVAILABLE`,
`DOCLING_AVAILABLE` and `OCR_AVAILABLE` import flags; PyPDFLoader is
imported unconditionally and has no flag.
-/

/-- Embedding of Python `str.strip()`: drops whitespace from both ends.
Defined over the character list so that it evaluates inside the kernel. -/
def pyStrip (s : String) : String :=
  String.mk
    (((s.data.dropWhile Char.isWhitespace).reverse.dropWhile
        Char.isWhitespace).reverse)

/-- Embedding of a LangChain `Document` produced by a parser. -/
structure RawDocument where
  page_content : String
  srcTag : String
deriving Repr, DecidableEq

/-- Oracle inputs for one run of the parser fallback chain. -/
structure ParseEnv where
  pymupdf_available : Bool
  pymupdf_text : Option String
  pypdf_pages : Option (List String)
  docling_available : Bool
  docling_markdown : Option String
  ocr_available : Bool
  ocr_text : Option String
deriving Repr, DecidableEq

/-- Documents produced by the PyMuPDF stage: accepted only when the
stripped text is non-empty and longer than 100 characters
(`if full_text.strip() and len(full_text.strip()) > 100`). -/
def pymupdfDocs (env : ParseEnv) : List RawDocument :=
  if env.pymupdf_available then
    match env.pymupdf_text with
    | some t =>
      if pyStrip t ≠ "" ∧ 100 < (pyStrip t).length then [⟨t, "pymupdf"⟩]
      else []
    | none => []
  else []

/-- Documents produced by the PyPDFLoader stage: one document per page,
with no content threshold (`documents = loader.load()`). -/
def pypdfDocs (env : ParseEnv) : List RawDocument :=
  match env.pypdf_pages with
  | some pages => pages.map (fun p => ⟨p, "pypdf"⟩)
  | none => []

/-- Documents produced by the Docling stage: accepted when the markdown is
non-empty (`if markdown_content and len(markdown_content.strip()) > 0`). -/
def doclingDocs (env : ParseEnv) : List RawDocument :=
  if env.docling_available then
    match env.docling_markdown with
    | some md =>
      if md ≠ "" ∧ 0 < (pyStrip md).length then [⟨md, "docling"⟩] else []
    | none => []
  else []

/-- Documents produced by the OCR stage: accepted only when the stripped
text is non-empty and longer than 50 characters
(`if full_text.strip() and len(full_text.strip()) > 50`). -/
def ocrDocs (env : ParseEnv) : List RawDocument :=
  if env.ocr_available then
    match env.ocr_text with
    | some t =>
      if pyStrip t ≠ "" ∧ 50 < (pyStrip t).length then [⟨t, "ocr"⟩]
      else []
    | none => []
  else []

/-- The four stages of the fallback chain, in source order. -/
inductive ChainStage
  | pymupdf
  | pypdf
  | docling
  | ocr
deriving Repr, DecidableEq

/-- Documents a given stage would contribute (empty when the library is
unavailable, raised, or its output was rejected). -/
def stageDocs (env : ParseEnv) : ChainStage → List RawDocument
  | .pymupdf => pymupdfDocs env
  | .pypdf => pypdfDocs env
  | .docling => doclingDocs env
  | .ocr => ocrDocs env

/-- The `parser_used` label the source attaches to each stage. -/
def stageName : ChainStage → String
  | .pymupdf => "pymupdf"
  | .pypdf => "pypdf"
  | .docling => "docling"
  | .ocr => "ocr"

/-- First stage, in the fixed source order PyMuPDF, PyPDFLoader, Docling,
OCR, that produces documents — if any stage does. -/
def firstSuccess (env : ParseEnv) : Option ChainStage :=
  if pymupdfDocs env ≠ [] then some .pymupdf
  else if pypdfDocs env ≠ [] then some .pypdf
  else if doclingDocs env ≠ [] then some .docling
  else if ocrDocs env ≠ [] then some .ocr
  else none

/-- Result of the fallback chain: the extracted documents, the
`parser_used` label, and (instrumentation) which stages actually ran. -/
structure ParseOutcome where
  documents : List RawDocument
  parserUsed : String
  attempted : List ChainStage
deriving Repr, DecidableEq

/-- Embedding of the parser fallback chain of `process_pdf_background`
(chatlog/views.py lines 302-401).  Each stage only runs when `documents`
is still empty; PyMuPDF, Docling and OCR additionally require their
availability flag; `parser_used` starts as `"pypdf"` and is reassigned by
the stage that sets `documents` (PyPDFLoader sets it whenever its load
call returns, even with zero pages). -/
def tryParseChain (env : ParseEnv) : ParseOutcome :=
  -- 1. Try PyMuPDF first (fastest)
  let docs1 := pymupdfDocs env
  let used1 := if docs1 ≠ [] then "pymupdf" else "pypdf"
  let att1 : List ChainStage :=
    if env.pymupdf_available then [.pymupdf] else []
  -- 2. Fallback to PyPDFLoader
  let docs2 := if docs1 = [] then pypdfDocs env else docs1
  let used2 :=
    if docs1 = [] ∧ env.pypdf_pages ≠ none then "pypdf" else used1
  let att2 := if docs1 = [] then att1 ++ [.pypdf] else att1
  -- 3. Final fallback to Docling (slow but handles complex layouts)
  let docs3 := if docs2 = [] then doclingDocs env else docs2
  let used3 :=
    if docs2 = [] ∧ doclingDocs env ≠ [] then "docling" else used2
  let att3 :=
    if docs2 = [] ∧ env.docling_available then att2 ++ [.docling] else att2
  -- 4. Final fallback: OCR for scanned/image-based PDFs
  let docs4 := if docs3 = [] then ocrDocs env else docs3
  let used4 := if docs3 = [] ∧ ocrDocs env ≠ [] then "ocr" else used3
  let att4 :=
    if docs3 = [] ∧ env.ocr_available then att3 ++ [.ocr] else att3
  ⟨docs4, used4, att4⟩

/-- Membership in an if-then-else singleton list. -/
theorem mem_ite_singleton {α : Type} (a b : α) (c : Prop) [Decidable c] :
    (a ∈ if c then [b] else ([] : List α)) ↔ c ∧ a = b := by
  split <;> simp_all

/-- Membership in an if-then-else appended element. -/
theorem mem_ite_append {α : Type} (a : α) (l : List α) (x : α) (c : Prop)
    [Decidable c] :
    (a ∈ if c then l ++ [x] else l) ↔ a ∈ l ∨ (c ∧ a = x) := by
  split <;> simp_all

/-- Helper: a non-empty PyPDFLoader result means the load call returned. -/
theorem pypdf_pages_of_docs (env : ParseEnv) (h : pypdfDocs env ≠ []) :
    env.pypdf_pages ≠ none := by
  intro hn
  exact h (by simp [pypdfDocs, hn])

/-- Claim C3: the parsers run in the fixed order PyMuPDF, PyPDFLoader,
Docling, OCR; a later stage runs only when every earlier stage produced no
documents; and the documents handed to chunking are exactly those of the
first stage that produced any, which also supplies the `parser_used`
label. -/
theorem parse_chain_fallback (env : ParseEnv) :
    ((tryParseChain env).documents =
      (firstSuccess env).elim [] (stageDocs env)) ∧
    (∀ p, firstSuccess env = some p →
      (tryParseChain env).parserUsed = stageName p) ∧
    (ChainStage.pypdf ∈ (tryParseChain env).attempted →
      pymupdfDocs env = []) ∧
    (ChainStage.docling ∈ (tryParseChain env).attempted →
      pymupdfDocs env = [] ∧ pypdfDocs env = []) ∧
    (ChainStage.ocr ∈ (tryParseChain env).attempted →
      pymupdfDocs env = [] ∧ pypdfDocs env = [] ∧ doclingDocs env = []) := by
  have hpy := pypdf_pages_of_docs env
  by_cases h1 : pymupdfDocs env = [] <;>
    by_cases h2 : pypdfDocs env = [] <;>
      by_cases h3 : doclingDocs env = [] <;>
        by_cases h4 : ocrDocs env = [] <;>
          simp_all [tryParseChain, firstSuccess, stageDocs, stageName,
            Option.elim, mem_ite_singleton, mem_ite_append] <;>
          (split <;> simp [mem_ite_singleton])

/-- Claim C3 witness: with PyMuPDF unavailable and PyPDFLoader raising, a
Docling run implies the two earlier stages produced nothing. -/
theorem parse_chain_fallback_witness :
    pymupdfDocs
        { pymupdf_available := false
          pymupdf_text := none
          pypdf_pages := none
          docling_available := true
          docling_markdown := some "x"
          ocr_available := false
          ocr_text := none } = [] ∧
    pypdfDocs
        { pymupdf_available := false
          pymupdf_text := none
          pypdf_pages := none
          docling_available := true
          docling_markdown := some "x"
          ocr_available := false
          ocr_text := none } = [] :=
  (parse_chain_fallback
    { pymupdf_available := false
      pymupdf_text := none
      pypdf_pages := none
      docling_available := true
      docling_markdown := some "x"
      ocr_available := false
      ocr_text := none }).2.2.2.1 (by decide)

/-- Authenticated user as seen by `get_authenticated_user`: what matters
for metering is the linked subscription row (possibly absent). -/
structure AuthUser where
  subscription : Option UserSubscription
deriving Repr, DecidableEq

/-- Inputs of one `upload_pdf` request (chatlog/views.py lines 465-550).
`kb_error` is the error response status of `get_user_knowledge_base`
(`none` when the knowledge base resolves); `auth_user` is the result of
`get_authenticated_user`; `has_file` is whether `"file"` is in
`request.FILES`; `file_size` the uploaded size in bytes. -/
structure UploadRequest where
  kb_error : Option Nat
  auth_user : Option AuthUser
  has_file : Bool
  file_size : Int
deriving Repr, DecidableEq

/-- Observable effects of one `upload_pdf` request: the HTTP status, the
presence of an `"error"` field in the JSON body, whether the file was
written to disk, the status of the created `UploadedPDF` record (if one
was created), whether a background thread was spawned, and the
authenticated user's subscription row afterwards. -/
structure UploadEffects where
  http_status : Nat
  has_error : Bool
  file_saved : Bool
  record_created_status : Option String
  thread_spawned : Bool
  sub_after : Option UserSubscription
deriving Repr, DecidableEq

/-- The `MAX_FILE_SIZE = 10 * 1024 * 1024` constant of `upload_pdf`. -/
def MAX_FILE_SIZE : Int := 10 * 1024 * 1024

/-- Continuation of `upload_pdf` after the knowledge-base and
subscription-limit checks: reject with 400 when no file is present or the
file exceeds 10MB; otherwise save the file, create the record with status
`processing`, increment the PDF count (a no-op without a subscription)
and spawn the processing thread. -/
def upload_pdf_accept (req : UploadRequest) (sub : Option UserSubscription) :
    UploadEffects :=
  if req.has_file = false then
    ⟨400, true, false, none, false, sub⟩
  else if MAX_FILE_SIZE < req.file_size then
    ⟨400, true, false, none, false, sub⟩
  else
    ⟨200, false, true, some "processing", true, Utils.increment_pdf_count sub⟩

/-- Embedding of `upload_pdf` (chatlog/views.py lines 465-550): resolve
the knowledge base, then for authenticated users run the subscription
`can_upload_pdf` check (its `get_user_subscription` call persists a period
reset) and reject with 403 on failure, then check file presence and size
and finally accept. -/
def upload_pdf (req : UploadRequest) : UploadEffects :=
  match req.kb_error with
  | some s =>
    ⟨s, true, false, none, false,
      req.auth_user.bind (fun au => au.subscription)⟩
  | none =>
    match req.auth_user with
    | some au =>
      let subR := Utils.get_user_subscription au.subscription
      if (Utils.can_upload_pdf au.subscription).1 then
        upload_pdf_accept req subR
      else
        ⟨403, true, false, none, false, subR⟩
    | none => upload_pdf_accept req none

/-- Oracle inputs for a full run of `process_pdf_background`:
`split_chunks` is `RecursiveCharacterTextSplitter.split_documents`, and
`embed_ok = false` models `vectorstore.add_documents` raising (caught by
the outer `except Exception`, which marks the record failed). -/
structure ProcessEnv extends ParseEnv where
  split_chunks : List RawDocument → List RawDocument
  embed_ok : Bool

/-- Embedding of
`total_content = sum(len(doc.page_content.strip()) for doc in documents)`. -/
def totalContent (docs : List RawDocument) : Nat :=
  (docs.map (fun d => (pyStrip d.page_content).length)).sum

/-- Status default declared on the `UploadedPDF` model
(chatlog/models.py line 48). -/
def uploadedPdfDefaultStatus : String := "uploading"

/-- Embedding of the status writes performed by `process_pdf_background`
(chatlog/views.py lines 287-462), in order: the record is first saved with
status `processing`; then it is marked `failed` when no parser produced
documents, when the total stripped content is under 50 characters, when no
chunks were produced, or when embedding raised; otherwise `completed`. -/
def process_pdf_background (env : ProcessEnv) : List String :=
  let documents := (tryParseChain env.toParseEnv).documents
  if documents = [] then ["processing", "failed"]
  else if totalContent documents < 50 then ["processing", "failed"]
  else
    let docs := env.split_chunks documents
    if docs = [] then ["processing", "failed"]
    else if env.embed_ok then ["processing", "completed"]
    else ["processing", "failed"]

/-- Every value the `status` field of an `UploadedPDF` record takes during
upload plus background processing: `upload_pdf` creates the record with
`status='processing'` (views.py line 524), then the background thread
writes the values of `process_pdf_background`. -/
def uploaded_pdf_status_history (env : ProcessEnv) : List String :=
  "processing" :: process_pdf_background env

/-- Concrete processing run where PyMuPDF extracts 101 characters, the
splitter returns its input, and embedding succeeds. -/
def happyProcessEnv : ProcessEnv :=
  { pymupdf_available := true
    pymupdf_text := some (String.mk (List.replicate 101 'a'))
    pypdf_pages := none
    docling_available := false
    docling_markdown := none
    ocr_available := false
    ocr_text := none
    split_chunks := fun ds => ds
    embed_ok := true }

/-- Claim C2 (counterexample): on a concrete successful upload run the
status history is `processing, processing, completed` — the record never
holds the value `uploading`, so it does not start in status `uploading`
as the claim states. -/
theorem uploaded_pdf_no_uploading_state :
    uploaded_pdf_status_history happyProcessEnv =
      ["processing", "processing", "completed"] ∧
    uploadedPdfDefaultStatus ∉ uploaded_pdf_status_history happyProcessEnv := by
  constructor
  · rfl
  · decide

/-- Claim C2 (amended): `upload_pdf` creates records directly in status
`processing` (the declared model default `uploading` is never used), and a
terminating background run leaves the record in exactly one of `completed`
or `failed`; the value `uploading` never occurs. -/
theorem uploaded_pdf_status_machine (req : UploadRequest) (env : ProcessEnv) :
    ((upload_pdf req).record_created_status = none ∨
      (upload_pdf req).record_created_status = some "processing") ∧
    (uploaded_pdf_status_history env =
        ["processing", "processing", "completed"] ∨
      uploaded_pdf_status_history env =
        ["processing", "processing", "failed"]) ∧
    uploadedPdfDefaultStatus ∉ uploaded_pdf_status_history env := by
  have hst : uploaded_pdf_status_history env =
        ["processing", "processing", "completed"] ∨
      uploaded_pdf_status_history env =
        ["processing", "processing", "failed"] := by
    simp only [uploaded_pdf_status_history, process_pdf_background]
    split_ifs <;> first | exact Or.inl rfl | exact Or.inr rfl
  refine ⟨?_, hst, ?_⟩
  · rcases hk : req.kb_error with _ | s <;>
      rcases ha : req.auth_user with _ | au <;>
        simp only [upload_pdf, upload_pdf_accept, hk, ha] <;>
          first
          | (split_ifs <;> simp)
          | simp
  · rcases hst with h | h <;> rw [h] <;> decide

/-- Claim C6: for an authenticated user with a subscription, `upload_pdf`
answers 403 without creating a record or changing the PDF count whenever
`pdfs_uploaded` has reached the plan's `pdf_limit`, and every accepted
upload (HTTP 200) increments `pdfs_uploaded` by exactly one. -/
theorem upload_pdf_limit_spec (req : UploadRequest) (au : AuthUser)
    (s : UserSubscription) (hkb : req.kb_error = none)
    (hauth : req.auth_user = some au) (hsub : au.subscription = some s) :
    (s.plan.pdf_limit ≤ s.pdfs_uploaded →
      (upload_pdf req).http_status = 403 ∧
      (upload_pdf req).record_created_status = none ∧
      (upload_pdf req).sub_after.map (fun t => t.pdfs_uploaded) =
        some s.pdfs_uploaded) ∧
    ((upload_pdf req).http_status = 200 →
      (upload_pdf req).sub_after.map (fun t => t.pdfs_uploaded) =
        some (s.pdfs_uploaded + 1)) := by
  obtain ⟨⟨cl, pl⟩, st, cu, pu, pe⟩ := s
  constructor
  · intro hlim
    have hcan : (Utils.can_upload_pdf au.subscription).1 = false := by
      rw [hsub]
      cases pe <;>
        simp only [Utils.can_upload_pdf, Utils.get_user_subscription,
          reset_monthly_usage, is_pdf_limit_reached, Bool.false_eq_true,
          if_false, if_true] <;>
        split_ifs <;> simp_all
    simp only [upload_pdf, hkb, hauth, hcan, Bool.false_eq_true, if_false]
    rw [hsub]
    cases pe <;>
      simp [Utils.get_user_subscription, reset_monthly_usage]
  · intro h200
    by_cases hcanb : (Utils.can_upload_pdf au.subscription).1 = true
    · simp only [upload_pdf, hkb, hauth, hcanb, if_true,
        upload_pdf_accept] at h200 ⊢
      split_ifs at h200 ⊢ with h1 h2
      · simp at h200
      · simp at h200
      · rw [hsub]
        cases pe <;>
          simp [Utils.get_user_subscription, Utils.increment_pdf_count,
            UserSubscription.increment_pdf_count, reset_monthly_usage]
    · have hcan : (Utils.can_upload_pdf au.subscription).1 = false := by
        revert hcanb
        cases (Utils.can_upload_pdf au.subscription).1 <;> simp
      simp only [upload_pdf, hkb, hauth, hcan, Bool.false_eq_true,
        if_false] at h200
      simp at h200

/-- Claim C6 witness: a user at 3 of 3 PDFs is rejected with 403, and an
upload accepted for a user at 0 of 3 yields a count of 1. -/
theorem upload_pdf_limit_spec_witness :
    (upload_pdf
        ⟨none, some ⟨some ⟨⟨1000, 3⟩, "active", 0, 3, false⟩⟩, true,
          100⟩).http_status = 403 ∧
    (upload_pdf
        ⟨none, some ⟨some ⟨⟨1000, 3⟩, "active", 0, 0, false⟩⟩, true,
          100⟩).sub_after.map (fun t => t.pdfs_uploaded) = some (0 + 1) :=
  ⟨((upload_pdf_limit_spec
        ⟨none, some ⟨some ⟨⟨1000, 3⟩, "active", 0, 3, false⟩⟩, true, 100⟩
        ⟨some ⟨⟨1000, 3⟩, "active", 0, 3, false⟩⟩
        ⟨⟨1000, 3⟩, "active", 0, 3, false⟩ rfl rfl rfl).1 (by decide)).1,
   (upload_pdf_limit_spec
        ⟨none, some ⟨some ⟨⟨1000, 3⟩, "active", 0, 0, false⟩⟩, true, 100⟩
        ⟨some ⟨⟨1000, 3⟩, "active", 0, 0, false⟩⟩
        ⟨⟨1000, 3⟩, "active", 0, 0, false⟩ rfl rfl rfl).2 (by decide)⟩

/-- Concrete upload request: authenticated user already at the PDF limit
sends a file of 10MB + 1 byte. -/
def oversizedAtLimitReq : UploadRequest :=
  { kb_error := none
    auth_user := some ⟨some ⟨⟨1000, 3⟩, "active", 0, 3, false⟩⟩
    has_file := true
    file_size := 10 * 1024 * 1024 + 1 }

/-- Claim C9 (counterexample): a file strictly larger than 10MB uploaded
by a user whose PDF limit is already reached is rejected with HTTP 403
(the subscription check fires first), not HTTP 400 — so not every
oversized file is rejected with 400. -/
theorem upload_pdf_oversize_not_always_400 :
    MAX_FILE_SIZE < oversizedAtLimitReq.file_size ∧
    (upload_pdf oversizedAtLimitReq).http_status = 403 ∧
    (upload_pdf oversizedAtLimitReq).http_status ≠ 400 := by
  decide

/-- Claim C9 (amended): for a request that passes the earlier checks
(knowledge base resolved and, when authenticated, the subscription
`can_upload_pdf` check), a file strictly larger than 10MB is rejected with
HTTP 400 before the file is saved, before any `UploadedPDF` record is
created, before the PDF count is incremented and before a processing
thread is spawned; requests failing the earlier checks are rejected with
those checks' own statuses. -/
theorem upload_pdf_size_limit_spec (req : UploadRequest)
    (hkb : req.kb_error = none)
    (hcan : ∀ au, req.auth_user = some au →
      (Utils.can_upload_pdf au.subscription).1 = true)
    (hfile : req.has_file = true) (hsize : MAX_FILE_SIZE < req.file_size) :
    (upload_pdf req).http_status = 400 ∧
    (upload_pdf req).has_error = true ∧
    (upload_pdf req).file_saved = false ∧
    (upload_pdf req).record_created_status = none ∧
    (upload_pdf req).thread_spawned = false ∧
    (upload_pdf req).sub_after.map (fun t => t.pdfs_uploaded) =
      (req.auth_user.bind (fun au => au.subscription)).map
        (fun t => t.pdfs_uploaded) := by
  rcases ha : req.auth_user with _ | au
  · simp only [upload_pdf, upload_pdf_accept, hkb, ha, hfile]
    rw [if_neg (by simp), if_pos hsize]
    simp
  · have hcau := hcan au ha
    simp only [upload_pdf, upload_pdf_accept, hkb, ha, hcau, if_true,
      hfile]
    rw [if_neg (by simp), if_pos hsize]
    rcases hs : au.subscription with _ | s
    · simp [hs, Utils.get_user_subscription]
    · obtain ⟨⟨cl, pl⟩, st, cu, pu, pe⟩ := s
      cases pe <;>
        simp [hs, Utils.get_user_subscription, reset_monthly_usage]

/-- Claim C9 witness: an oversized upload by a user with free capacity is
rejected with 400. -/
theorem upload_pdf_size_limit_spec_witness :
    (upload_pdf
        ⟨none, some ⟨some ⟨⟨1000, 3⟩, "active", 0, 0, false⟩⟩, true,
          10 * 1024 * 1024 + 1⟩).http_status = 400 :=
  (upload_pdf_size_limit_spec
      ⟨none, some ⟨some ⟨⟨1000, 3⟩, "active", 0, 0, false⟩⟩, true,
        10 * 1024 * 1024 + 1⟩
      rfl (by intro au h; cases h; decide) rfl (by decide)).1

/-!
Chat requests: `chatlog/views.py: ask_agent` (lines 579-731).  The LLM
answer is an oracle input; chat history is the list of `(role, content)`
pairs of the session's last messages, oldest first.
-/

/-- Inputs of one `ask_agent` request. -/
structure AskEnv where
  kb_error : Option Nat
  auth_user : Option AuthUser
  question : String
  history_messages : List (String × String)
  answer : String
deriving Repr, DecidableEq

/-- Embedding of the chat-history formatting loop of `ask_agent`
(views.py lines 635-643): user messages become `Human Message: …`,
assistant messages `AI Response: …`, and a non-empty history is prefixed
with a header line. -/
def format_chat_history (msgs : List (String × String)) : String :=
  let body := msgs.foldl
    (fun acc m =>
      if m.1 = "user" then acc ++ "Human Message: " ++ m.2 ++ "\n"
      else if m.1 = "assistant" then acc ++ "AI Response: " ++ m.2 ++ "\n\n"
      else acc) ""
  if body ≠ "" then "This is the last conversation history:\n" ++ body
  else body

/-- Observable effects of one `ask_agent` request: HTTP status, whether
the body carries an `"error"` field, whether the agent answered, the
`credits_used` amount the view computed, whether `use_credits` succeeded,
and the subscription row afterwards. -/
structure AskEffects where
  http_status : Nat
  has_error : Bool
  answered : Bool
  credits_charged : Int
  deduct_ok : Bool
  sub_after : Option UserSubscription
deriving Repr, DecidableEq

/-- The `credits_used` amount `ask_agent` computes for an answered,
authenticated exchange (views.py lines 654-657):
`input_tokens = len(user_input) // 4 + len(chat_history) // 4 + 50` plus
`output_tokens = len(ai_response) // 4`. -/
def askAgentCreditsUsed (env : AskEnv) : Int :=
  Int.ofNat (env.question.length / 4 +
    (format_chat_history env.history_messages).length / 4 + 50 +
    env.answer.length / 4)

/-- Embedding of the metering behaviour of `ask_agent`: empty question →
400; knowledge-base failure → its error; for authenticated users a
pre-check `can_use_credits(max(len(question) // 4 + 50, 100))` gates the
request with 403, and after the agent answers, `use_credits` is called
with the computed `credits_used` (its failure only logs a warning). -/
def ask_agent (env : AskEnv) : AskEffects :=
  if env.question = "" then
    ⟨400, true, false, 0, false,
      env.auth_user.bind (fun au => au.subscription)⟩
  else
    match env.kb_error with
    | some s =>
      ⟨s, true, false, 0, false,
        env.auth_user.bind (fun au => au.subscription)⟩
    | none =>
      match env.auth_user with
      | some au =>
        let estimated_input_tokens := env.question.length / 4 + 50
        let min_credits_needed := max estimated_input_tokens 100
        let subR := Utils.get_user_subscription au.subscription
        if (Utils.can_use_credits au.subscription
            (Int.ofNat min_credits_needed)).1 = false then
          ⟨403, true, false, 0, false, subR⟩
        else
          let r := Utils.use_credits subR (askAgentCreditsUsed env)
          ⟨200, false, true, askAgentCreditsUsed env, r.1.1, r.2⟩
      | none => ⟨200, false, true, 0, false, none⟩

/-- Concrete answered request whose computed usage (101 credits) exceeds
the 100 remaining credits, although the pre-check (100 credits minimum)
passed. -/
def insufficientAskEnv : AskEnv :=
  { kb_error := none
    auth_user := some ⟨some ⟨⟨100, 3⟩, "active", 0, 0, false⟩⟩
    question := "hi"
    history_messages := []
    answer := String.mk (List.replicate 204 'a') }

set_option maxRecDepth 100000 in
/-- Claim C4 (counterexample): an answered request computes 101 credits of
estimated usage, but the deduction fails (101 exceeds the 100-credit
limit) and `credits_used` stays 0 — so the credits actually deducted do
not equal the estimated token usage. -/
theorem ask_agent_deduction_mismatch :
    (ask_agent insufficientAskEnv).answered = true ∧
    (ask_agent insufficientAskEnv).credits_charged = 101 ∧
    (ask_agent insufficientAskEnv).deduct_ok = false ∧
    (ask_agent insufficientAskEnv).sub_after.map
      (fun t => t.credits_used) = some 0 := by
  decide

/-- Claim C4 (amended): for an answered authenticated request, the view
computes the charge as one token per four characters of question,
formatted history and answer plus a fixed 50, and deducts exactly that
amount when it fits within the plan limit — otherwise nothing is
deducted. -/
theorem ask_agent_credit_spec (env : AskEnv) (au : AuthUser)
    (s : UserSubscription) (hq : env.question ≠ "")
    (hkb : env.kb_error = none) (hauth : env.auth_user = some au)
    (hsub : au.subscription = some s) (hexp : s.period_expired = false)
    (hcan : (Utils.can_use_credits au.subscription
      (Int.ofNat (max (env.question.length / 4 + 50) 100))).1 = true) :
    (ask_agent env).answered = true ∧
    (ask_agent env).credits_charged = askAgentCreditsUsed env ∧
    (s.credits_used + askAgentCreditsUsed env ≤ s.plan.credit_limit →
      (ask_agent env).sub_after.map (fun t => t.credits_used) =
        some (s.credits_used + askAgentCreditsUsed env)) ∧
    (s.plan.credit_limit < s.credits_used + askAgentCreditsUsed env →
      (ask_agent env).sub_after.map (fun t => t.credits_used) =
        some s.credits_used) := by
  obtain ⟨⟨cl, pl⟩, stt, cu, pu, pe⟩ := s
  have hpe : pe = false := hexp
  subst hpe
  simp only [ask_agent, if_neg hq, hkb, hauth, hcan]
  rw [if_neg (by simp)]
  refine ⟨rfl, rfl, ?_, ?_⟩ <;> intro h <;>
    simp only [hsub, Utils.get_user_subscription, Utils.use_credits,
      UserSubscription.use_credits, reset_monthly_usage,
      Bool.false_eq_true, if_false] <;>
    split_ifs <;> simp_all <;> omega

set_option maxRecDepth 100000 in
/-- Claim C4 witness: a user with a 1000-credit limit asking a short
question with a 204-character answer is charged and deducted exactly the
computed amount. -/
theorem ask_agent_credit_spec_witness :
    (ask_agent
        { kb_error := none
          auth_user := some ⟨some ⟨⟨1000, 3⟩, "active", 0, 0, false⟩⟩
          question := "hi"
          history_messages := []
          answer := String.mk (List.replicate 204 'a') }).sub_after.map
      (fun t => t.credits_used) =
      some ((0 : Int) +
        askAgentCreditsUsed
          { kb_error := none
            auth_user := some ⟨some ⟨⟨1000, 3⟩, "active", 0, 0, false⟩⟩
            question := "hi"
            history_messages := []
            answer := String.mk (List.replicate 204 'a') }) :=
  (ask_agent_credit_spec
      { kb_error := none
        auth_user := some ⟨some ⟨⟨1000, 3⟩, "active", 0, 0, false⟩⟩
        question := "hi"
        history_messages := []
        answer := String.mk (List.replicate 204 'a') }
      ⟨some ⟨⟨1000, 3⟩, "active", 0, 0, false⟩⟩
      ⟨⟨1000, 3⟩, "active", 0, 0, false⟩
      (by decide) rfl rfl rfl rfl (by decide)).2.2.1 (by decide)

/-!
Agent graph cache: `chatlog/views.py` lines 34-51 and
`chatlog/admin_views.py: set_model_config` (lines 1788-1836).
`construct_agent_graph` builds a fresh agent instance each time it is
called; instances are numbered so that distinct constructions are
distinguishable.
-/

/-- State of the module-level `_agent_cache` dictionary together with a
supply of fresh agent-graph instances. -/
structure AgentCache where
  cache : List (String × Nat)
  next_graph : Nat
deriving Repr, DecidableEq

/-- Embedding of `get_or_create_agent_graph`: return the cached graph for
the collection name if present, otherwise construct a fresh graph, store
it and return it. -/
def get_or_create_agent_graph (st : AgentCache) (collection_name : String) :
    Nat × AgentCache :=
  match st.cache.lookup collection_name with
  | some g => (g, st)
  | none =>
    (st.next_graph,
      ⟨(collection_name, st.next_graph) :: st.cache, st.next_graph + 1⟩)

/-- Embedding of the cache effect of `admin_views.set_model_config` with a
valid model id: `_agent_cache.clear()`. -/
def set_model_config_clear (st : AgentCache) : AgentCache :=
  { st with cache := [] }

/-- Helper: a `get_or_create_agent_graph` call never removes or replaces
an existing cache entry. -/
theorem lookup_preserved (st : AgentCache) (n name : String) (g : Nat)
    (h : st.cache.lookup name = some g) :
    ((get_or_create_agent_graph st n).2).cache.lookup name = some g := by
  unfold get_or_create_agent_graph
  cases hl : st.cache.lookup n with
  | some g2 => simpa using h
  | none =>
    simp only [List.lookup]
    cases hb : name == n with
    | true =>
      exfalso
      have hn : name = n := eq_of_beq hb
      rw [hn] at h
      rw [h] at hl
      cases hl
    | false => simpa using h

/-- Claim C8 (counterexample): after `set_model_config` clears the cache,
the stored entry is gone and a subsequent `get_or_create_agent_graph` call
for the same collection returns a different (freshly constructed) graph —
so entries are removed and later calls do not always return the first
cached graph. -/
theorem agent_cache_cleared_by_model_change :
    (set_model_config_clear
        (get_or_create_agent_graph ⟨[], 0⟩ "collection_u").2).cache.lookup
      "collection_u" = none ∧
    (get_or_create_agent_graph
        (set_model_config_clear
          (get_or_create_agent_graph ⟨[], 0⟩ "collection_u").2)
        "collection_u").1 ≠
      (get_or_create_agent_graph ⟨[], 0⟩ "collection_u").1 := by
  decide

/-- Claim C8 (amended): `get_or_create_agent_graph` itself never evicts:
across any sequence of such calls, once a graph is stored for a collection
name every later call with that name returns that same graph and the entry
is never removed.  Only the admin `set_model_config` endpoint empties the
cache. -/
theorem agent_cache_no_eviction (names : List String) (st : AgentCache)
    (name : String) (g : Nat) (h : st.cache.lookup name = some g) :
    ((names.foldl (fun t n => (get_or_create_agent_graph t n).2)
        st).cache.lookup name = some g) ∧
    (get_or_create_agent_graph
        (names.foldl (fun t n => (get_or_create_agent_graph t n).2) st)
        name).1 = g := by
  induction names generalizing st with
  | nil =>
    refine ⟨h, ?_⟩
    simp [get_or_create_agent_graph, h]
  | cons n rest ih =>
    exact ih _ (lookup_preserved st n name g h)

/-- Claim C8 witness: a cache holding graph 7 for collection `c` still
returns graph 7 for `c` after calls for `d` and `c`. -/
theorem agent_cache_no_eviction_witness :
    (get_or_create_agent_graph
        (["d", "c"].foldl (fun t n => (get_or_create_agent_graph t n).2)
          ⟨[("c", 7)], 8⟩)
        "c").1 = 7 :=
  (agent_cache_no_eviction ["d", "c"] ⟨[("c", 7)], 8⟩ "c" 7 (by decide)).2

/-!
Error handling: the chatlog view handlers wrap their bodies in
`try: ... except Exception as e: return JsonResponse({"error": str(e)},
status=500)`.  The exception to this pattern is `run_rag_evaluation`
(chatlog/views.py lines 2641-2660), which executes
`from .langgraph_agent import is_summary_request` before entering its
`try` block; `langgraph_agent.py` defines no such name, so the import
raises an uncaught `ImportError` on every request.
-/

/-- HTTP reply of a view: a JSON body (with or without an `"error"`
field) and status code, or a file response. -/
inductive HttpReply
  | json (hasErrorField : Bool) (status : Nat)
  | fileResp
deriving Repr, DecidableEq

/-- Outcome of dispatching a request to a view: a normal reply, or an
exception propagating out of the view. -/
inductive ViewOutcome
  | reply (r : HttpReply)
  | uncaught (e : String)
deriving Repr, DecidableEq

/-- The shared catch-all pattern of the chatlog views: any exception of
the body becomes `JsonResponse({"error": str(e)}, status=500)`. -/
def catch_all (body : Except String HttpReply) : ViewOutcome :=
  match body with
  | .ok r => .reply r
  | .error _ => .reply (.json true 500)

/-- Module-level names bound in `chatlog/langgraph_agent.py` (its imports,
assignments and function definitions).  Neither `is_summary_request` nor
`get_current_model` nor `AVAILABLE_MODELS` is among them, although
`chatlog/views.py` and `src/tests/evaluate_agent.py` import them. -/
def langgraphAgentNames : List String :=
  ["os", "quote_plus", "pipeline", "create_react_agent", "tool", "PGVector",
   "HuggingFaceEmbeddings", "ChatOpenAI", "_postgres_password",
   "CONNECTION_STRING", "EMBEDDINGS", "FOUNDATION_COLLECTION",
   "OPENROUTER_API_KEY", "llm", "agent_instructions", "vector_store",
   "get_foundation_vectorstore", "construct_agent_graph",
   "add_to_foundation_kb", "search_foundation_kb", "search_user_docs"]

/-- Embedding of `run_rag_evaluation`: before its `try` block the view
executes `from .langgraph_agent import is_summary_request`, which raises
`ImportError` unless that name is bound in the module; only afterwards
would the catch-all protect the body. -/
def run_rag_evaluation (body : Except String HttpReply) : ViewOutcome :=
  if "is_summary_request" ∈ langgraphAgentNames then catch_all body
  else .uncaught "ImportError: is_summary_request"

/-- Claim C7: every request to `run_rag_evaluation` — whatever its body
would do — ends in an uncaught `ImportError` rather than any reply,
whereas the catch-all pattern used by the other views turns every body
exception into a 500 JSON error body.  This exhibits the view handler
whose exceptions propagate, refuting the claim on the code as shipped. -/
theorem run_rag_evaluation_uncaught (body : Except String HttpReply) :
    run_rag_evaluation body = .uncaught "ImportError: is_summary_request" ∧
    (∀ r, run_rag_evaluation body ≠ ViewOutcome.reply r) ∧
    (∀ e, catch_all (Except.error e) =
      ViewOutcome.reply (HttpReply.json true 500)) := by
  have hmem : "is_summary_request" ∉ langgraphAgentNames := by decide
  refine ⟨?_, ?_, fun e => rfl⟩
  · unfold run_rag_evaluation
    rw [if_neg hmem]
  · intro r
    unfold run_rag_evaluation
    rw [if_neg hmem]
    simp

end OSA
